import Mathlib

/-!
Verification of the AiLab backend orchestration core.

The Python sources are shallowly embedded: pure helpers become Lean functions,
raised exceptions become `Except.error` carrying `str(e)`, the remote completion
client and `json.loads` are abstracted as oracle parameters, and machine floats
are modelled by exact rationals (every number compared by the specification is a
short decimal literal).
-/

namespace AiLab

/-- ASCII whitespace as recognised by Python `str.strip()` and the regex class
`\s`.  Non-ASCII Unicode whitespace accepted by CPython is not modelled; all
inputs appearing in the claims are ASCII. -/
def pyIsSpace (c : Char) : Bool :=
  c = ' ' || c = '\t' || c = '\n' || c = '\r' || c = '\x0b' || c = '\x0c'

/-- ASCII lowering, as `str.lower()` acts on ASCII text. -/
def pyLowerChar (c : Char) : Char :=
  if 'A' ≤ c ∧ c ≤ 'Z' then Char.ofNat (c.toNat + 32) else c

/-- Python `str.lower()` (ASCII fragment). -/
def pyToLower (s : String) : String :=
  (s.data.map pyLowerChar).asString

/-- Remove leading and trailing characters satisfying `p`. -/
def stripList (p : Char → Bool) (cs : List Char) : List Char :=
  ((cs.dropWhile p).reverse.dropWhile p).reverse

/-- Python `str.strip()` with no argument: trim whitespace from both ends. -/
def pyStrip (s : String) : String :=
  (stripList pyIsSpace s.data).asString

/-- Python `str.strip("- ")`: remove every leading and trailing character drawn
from the two-character set `{"-", " "}` (both ends, arbitrarily many). -/
def pyStripDashSpace (s : String) : String :=
  (stripList (fun c => c = '-' || c = ' ') s.data).asString

/-- Python `s.split("\n")` on the character list: always at least one piece. -/
def splitOnNl : List Char → List (List Char)
  | [] => [[]]
  | c :: rest =>
    if c = '\n' then [] :: splitOnNl rest
    else
      match splitOnNl rest with
      | [] => [[c]]
      | l :: ls => (c :: l) :: ls

/-- Python `s.split("\n")`. -/
def pySplitLines (s : String) : List String :=
  (splitOnNl s.data).map List.asString

/-- Does the second list start with the first?  Python `str.startswith`. -/
def charsPrefix : List Char → List Char → Bool
  | [], _ => true
  | _ :: _, [] => false
  | p :: ps, c :: cs => p = c && charsPrefix ps cs

/-- Python `needle in hay` for strings, on character lists. -/
def charsContains (needle : List Char) : List Char → Bool
  | [] => charsPrefix needle []
  | c :: rest => charsPrefix needle (c :: rest) || charsContains needle rest

/-- Characters matched by the regex class `[0-9.]`. -/
def isDigitDot (c : Char) : Bool :=
  c.isDigit || c = '.'

/-- Characters matched by the regex class `[:\s]`. -/
def isColonSpace (c : Char) : Bool :=
  c = ':' || pyIsSpace c

/-- Leftmost match of the Python regex `confidence[:\s]*([0-9.]+)` over a
character list, returning capture group 1.  The two character classes are
disjoint, so greedy matching without backtracking is exact; on a failed match
attempt the start position advances by one, as `re.search` does. -/
def confMatch : List Char → Option (List Char)
  | [] => none
  | c :: rest =>
    if charsPrefix "confidence".data (c :: rest) then
      let after := (c :: rest).drop 10
      let tok := (after.dropWhile isColonSpace).takeWhile isDigitDot
      if tok.isEmpty then confMatch rest else some tok
    else confMatch rest

/-- Numeric value of a digit list (most significant first). -/
def digitsToNat (ds : List Char) : Nat :=
  ds.foldl (fun a c => 10 * a + (c.toNat - 48)) 0

/-- Exact value denoted by an integer digit part and a fractional digit part,
as Python `float()` reads a `ddd.ddd` literal. -/
def tokenValue (intPart fracPart : List Char) : ℚ :=
  (digitsToNat intPart : ℚ) + (digitsToNat fracPart : ℚ) / (10 : ℚ) ^ fracPart.length

/-- Python `float()` applied to a token drawn from `[0-9.]+`: defined exactly
when the token has at least one digit and at most one dot, raising `ValueError`
(`none`) otherwise.  Rationals stand in for IEEE doubles; the claims only
compare against short decimal literals, which the model represents exactly. -/
def pyFloatOfToken (tok : List Char) : Option ℚ :=
  if tok.all isDigitDot && tok.any Char.isDigit && tok.count '.' ≤ 1 then
    some (tokenValue (tok.takeWhile (fun c => c ≠ '.'))
      ((tok.dropWhile (fun c => c ≠ '.')).drop 1))
  else
    none

/-- Confidence extraction of `BaseAgent._parse_response`:
`re.search(r"confidence[:\s]*([0-9.]+)", response.lower())`, then
`float(group(1))` if matched, else the default `0.7`.  A `float()` failure is
the raised `ValueError`. -/
def parseConfidence (response : String) : Except String ℚ :=
  match confMatch (pyToLower response).data with
  | none => Except.ok (7/10 : ℚ)
  | some tok =>
    match pyFloatOfToken tok with
    | some q => Except.ok q
    | none =>
      Except.error ("could not convert string to float: \x27" ++ tok.asString ++ "\x27")

/-- Recommendation extraction: `"de novo" in response.lower()`. -/
def recommendationOf (response : String) : String :=
  if charsContains "de novo".data (pyToLower response).data then "De Novo Design"
  else "Modify Existing Nanobodies"

/-- Reasoning extraction: the lines of `response.strip().split("\n")` whose
`strip()` starts with `"- "`, each passed through `strip("- ")`. -/
def extractReasoning (response : String) : List String :=
  ((pySplitLines (pyStrip response)).filter
      (fun l => charsPrefix "- ".data (pyStrip l).data)).map pyStripDashSpace

structure ParsedResponse where
  analysis : String
  recommendation : String
  confidence : ℚ
  reasoning : List String
deriving Repr, DecidableEq

/-- Model of `BaseAgent._parse_response`.  The full response is kept as `analysis`; the
only statement of the Python body that can raise is the `float()` call, whose
`ValueError` is the `.error` case. -/
def parseResponse (response : String) : Except String ParsedResponse :=
  match parseConfidence response with
  | Except.error e => Except.error e
  | Except.ok q =>
    Except.ok ⟨response, recommendationOf response, q, extractReasoning response⟩

/-- C2: false as stated.  The Response Parser is not a total function: on the
input "confidence.." the regex captures the token ".." and `float("..")` raises
`ValueError`, which propagates out of `_parse_response`. -/
theorem c2_parser_raises_on_dotted_confidence :
    parseResponse "confidence.." =
      Except.error "could not convert string to float: \x27..\x27" := rfl

/-- From the spec words of C6, not from the code: a decimal number starts at
this position (a digit, or a dot immediately followed by a digit). -/
def specDecimalStartsAt : List Char → Bool
  | [] => false
  | c :: rest =>
    c.isDigit ||
      (c = '.' && (match rest with | [] => false | d :: _ => d.isDigit))

/-- From the spec words of C6, not from the code: the text contains an
occurrence of "confidence" followed by optional punctuation/whitespace and a
decimal number. -/
def specHasConfidenceNumber : List Char → Bool
  | [] => false
  | c :: rest =>
    (charsPrefix "confidence".data (c :: rest) &&
        specDecimalStartsAt (((c :: rest).drop 10).dropWhile isColonSpace)) ||
      specHasConfidenceNumber rest

/-- C6 is false as stated: "confidence ." contains no occurrence of
"confidence" followed by optional punctuation/whitespace and a decimal number,
so the claim demands confidence exactly 0.7, but the parser does not produce
0.7 there — the regex still captures "." and `float(".")` raises. -/
theorem c6_counterexample_dot_token :
    specHasConfidenceNumber (pyToLower "confidence .").data = false ∧
      parseConfidence "confidence ." ≠ Except.ok (7/10 : ℚ) := by
  refine ⟨by decide, ?_⟩
  have h : parseConfidence "confidence ." =
      Except.error "could not convert string to float: \x27.\x27" := rfl
  rw [h]
  intro hc
  exact Except.noConfusion hc

/-- C6 amended: when the regex `confidence[:\s]*([0-9.]+)` has no match over
the lowercased text the confidence is exactly 0.7; when it matches and the
captured token is a valid float literal, that value is used as-is with no range
clamping ("confidence: 0.85" gives 0.85 and "confidence: 95" gives 95.0); when
the captured token is not a valid float literal (only dots, or several dots)
the parser raises instead of defaulting. -/
theorem c6_amended_confidence_extraction :
    ∀ (s : String) (tok : List Char) (q : ℚ),
      (confMatch (pyToLower s).data = none →
        parseConfidence s = Except.ok (7/10 : ℚ)) ∧
      (confMatch (pyToLower s).data = some tok → pyFloatOfToken tok = some q →
        parseConfidence s = Except.ok q) ∧
      parseConfidence "confidence: 0.85" = Except.ok (85/100 : ℚ) ∧
      parseConfidence "confidence: 95" = Except.ok (95 : ℚ) := by
  intro s tok q
  have h085 : parseConfidence "confidence: 0.85" =
      Except.ok (tokenValue ['0'] ['8', '5']) := rfl
  have h95 : parseConfidence "confidence: 95" =
      Except.ok (tokenValue ['9', '5'] []) := rfl
  refine ⟨?_, ?_, ?_, ?_⟩
  · intro h
    simp only [parseConfidence, h]
  · intro h1 h2
    simp only [parseConfidence, h1, h2]
  · rw [h085]
    have d1 : digitsToNat ['0'] = 0 := rfl
    have d2 : digitsToNat ['8', '5'] = 85 := rfl
    simp only [tokenValue, d1, d2, List.length]
    norm_num
  · rw [h95]
    have d1 : digitsToNat ['9', '5'] = 95 := rfl
    have d2 : digitsToNat ([] : List Char) = 0 := rfl
    simp only [tokenValue, d1, d2, List.length]
    norm_num

theorem c6_witness :
    parseConfidence "no mention here" = Except.ok (7/10 : ℚ) ∧
      parseConfidence "confidence 0.9" = Except.ok (tokenValue ['0'] ['9']) :=
  ⟨(c6_amended_confidence_extraction "no mention here" [] 0).1 rfl,
   (c6_amended_confidence_extraction "confidence 0.9" "0.9".data
      (tokenValue ['0'] ['9'])).2.1 rfl rfl⟩

/-- C7 is false as stated: on the single-line response "- item -" the parsed
reasoning is ["item"], not ["item -"] — Python `strip("- ")` removes trailing
dash/space characters as well, so more than the leading marker is removed. -/
theorem c7_counterexample_strip :
    parseResponse "- item -" =
      Except.ok ⟨"- item -", "Modify Existing Nanobodies", 7/10, ["item"]⟩ ∧
      (["item"] : List String) ≠ ["item -"] :=
  ⟨rfl, by decide⟩

/-- C7 amended: whenever the parser completes, every line of the stripped
response whose trim starts with "- " contributes exactly one reasoning item, in
original line order, and the item is the line with ALL leading and trailing
dash and space characters removed (Python `strip("- ")`), not merely the
leading "- " marker; lines not so prefixed never appear. -/
theorem c7_amended_reasoning_lines :
    ∀ (s : String) (p : ParsedResponse), parseResponse s = Except.ok p →
      p.reasoning = ((pySplitLines (pyStrip s)).filter
          (fun l => charsPrefix "- ".data (pyStrip l).data)).map pyStripDashSpace ∧
      (∀ l ∈ pySplitLines (pyStrip s), charsPrefix "- ".data (pyStrip l).data = true →
        pyStripDashSpace l ∈ p.reasoning) ∧
      (∀ r ∈ p.reasoning, ∃ l ∈ pySplitLines (pyStrip s),
        charsPrefix "- ".data (pyStrip l).data = true ∧ r = pyStripDashSpace l) := by
  intro s p h
  have hr : p.reasoning = ((pySplitLines (pyStrip s)).filter
      (fun l => charsPrefix "- ".data (pyStrip l).data)).map pyStripDashSpace := by
    cases hc : parseConfidence s with
    | error e =>
      exfalso
      simp only [parseResponse, hc] at h
      exact Except.noConfusion h
    | ok q =>
      have h2 : (Except.ok (⟨s, recommendationOf s, q, extractReasoning s⟩ : ParsedResponse)
          : Except String ParsedResponse) = Except.ok p := by
        rw [← h]
        simp only [parseResponse, hc]
      injection h2 with h3
      rw [← h3]
      rfl
  refine ⟨hr, ?_, ?_⟩
  · intro l hl hq
    rw [hr]
    exact List.mem_map_of_mem _ (List.mem_filter.mpr ⟨hl, hq⟩)
  · intro r hrr
    rw [hr] at hrr
    obtain ⟨l, hl, rfl⟩ := List.mem_map.mp hrr
    exact ⟨l, (List.mem_filter.mp hl).1, (List.mem_filter.mp hl).2, rfl⟩

theorem c7_witness :
    (ParsedResponse.mk "- alpha" "Modify Existing Nanobodies" (7/10) ["alpha"]).reasoning =
      ((pySplitLines (pyStrip "- alpha")).filter
        (fun l => charsPrefix "- ".data (pyStrip l).data)).map pyStripDashSpace :=
  (c7_amended_reasoning_lines "- alpha"
    ⟨"- alpha", "Modify Existing Nanobodies", 7/10, ["alpha"]⟩ rfl).1

/-- JSON values, the co-domain of `json.loads`.  Numbers are exact rationals;
objects are association lists (CPython dicts have unique keys, so first-match
lookup agrees with dict lookup). -/
inductive JValue where
  | jnull : JValue
  | jbool : Bool → JValue
  | jnum : ℚ → JValue
  | jstr : String → JValue
  | jarr : List JValue → JValue
  | jobj : List (String × JValue) → JValue
deriving Repr

/-- Lookup of a key in a JSON object; `none` on non-objects or missing keys. -/
def jobjLookup (v : JValue) (k : String) : Option JValue :=
  match v with
  | .jobj fs => fs.lookup k
  | _ => none

/-- One progress event as stored by `VirtualLab.emit_event`: already a
JSON-safe dict, with enum values converted to strings and the timestamp to an
ISO string. -/
structure Event where
  event_type : String
  timestamp : String
  step_name : String
  agent_role : Option String
  progress : ℚ
  message : String
deriving Repr

/-- One expert opinion (`models.state.AgentInput`); the `agent` field holds the
`AgentRole` enum value string. -/
structure AgentInput where
  agent : String
  analysis : String
  recommendation : String
  confidence : ℚ
  reasoning : List String
deriving Repr

/-- Model of `models.state.ProjectState` (pydantic model): exactly the declared fields —
note there is no `metadata` field. -/
structure ProjectState where
  text : String
  agent_inputs : List AgentInput := []
  extracted_data : List (String × JValue) := []
  strategy : List (String × JValue) := []
  status : String := "started"
  error : String := ""
  current_agent : Option String := none

/-- External collaborators of one `VirtualLab` run: `oracle n prompt` is the
outcome of the n-th `OpenAIService.chat_completion` call (`.error` = the raised
exception's message), `jsonDecode` is `json.loads` (`none` = any decode
exception, caught by the bare `except:`), and `clock n` is the ISO string
produced by the n-th `datetime.utcnow()` call inside `emit_event`. -/
structure LabCtx where
  oracle : Nat → String → Except String String
  jsonDecode : String → Option JValue
  clock : Nat → String

/-- Mutable state of a `VirtualLab` instance: the append-only `self.events`
list plus the index of the next completion call. -/
structure LabState where
  events : List Event
  calls : Nat

/-- Model of `VirtualLab.emit_event`: append one JSON-safe event dict.  The registered
`progress_callback` receives exactly the appended dicts in order, so the
caller's accumulated callback list always equals `events` and needs no separate
model. -/
def emitEvent (ctx : LabCtx) (st : LabState) (event_type step_name : String)
    (progress : ℚ) (message : String) (agent_role : Option String) : LabState :=
  { st with events := st.events ++
      [⟨event_type, ctx.clock st.events.length, step_name, agent_role, progress, message⟩] }

/-- Model of `OpenAIService.chat_completion`: one oracle call per invocation. -/
def chatCompletion (ctx : LabCtx) (st : LabState) (prompt : String) :
    Except String String × LabState :=
  (ctx.oracle st.calls prompt, { st with calls := st.calls + 1 })

/-- Rendering of `"\n".join(f"{inp.agent}: {inp.analysis}")` used in the
expert-agent prompts. -/
def previousInputsText (inputs : List AgentInput) : String :=
  String.intercalate "\n" (inputs.map (fun inp => inp.agent ++ ": " ++ inp.analysis))

/-- Prompt of `PIAgent.extract_key_data`. -/
def extractPrompt (text : String) : String :=
  "\n        Extract key project data from this brief:\n        \n        " ++ text ++
    "\n        \n        Return JSON with:\n        \x7b\"target\": \"specific target protein/antigen\", \"timeline\": \"duration\", \"budget\": \"amount\", \"goal\": \"objective\", \"confidence\": 0.9\x7d\n        "

/-- Rendering of one team member line in `PIAgent.synthesize_strategy`
(`f"{inp.agent} (confidence {inp.confidence}): {inp.recommendation}\nReasoning: {inp.analysis}"`).
The decimal rendering of the float is abstracted by `toString` on the exact
rational; the text only feeds the completion oracle. -/
def teamSummaryLine (inp : AgentInput) : String :=
  inp.agent ++ " (confidence " ++ toString inp.confidence ++ "): " ++ inp.recommendation ++
    "\nReasoning: " ++ inp.analysis

/-- Prompt of `PIAgent.synthesize_strategy`. -/
def synthesizePrompt (state : ProjectState) : String :=
  "\n        As Principal Investigator, synthesize your team\x27s input into a final strategy recommendation.\n        \n        ORIGINAL PROJECT:\n        " ++
    state.text ++
    "\n        \n        TEAM RECOMMENDATIONS:\n        " ++
    String.intercalate "\n" (state.agent_inputs.map teamSummaryLine) ++
    "\n        \n        Based on team input, make final decision and return JSON:\n        \x7b\n            \"title\": \"Modify Existing Nanobodies\" or \"De Novo Design\",\n            \"rationale\": [\n                \x7b\"icon\": \"Clock\", \"label\": \"Timeline Match\", \"description\": \"team-based reasoning\"\x7d,\n                \x7b\"icon\": \"TrendingUp\", \"label\": \"Success Rate\", \"description\": \"team-based reasoning\"\x7d,\n                \x7b\"icon\": \"DollarSign\", \"label\": \"Budget Aligned\", \"description\": \"team-based reasoning\"\x7d\n            ],\n            \"candidates\": [\"Ty1\", \"H11-D4\", \"Nb21\", \"VHH-72\"] or [],\n            \"confidence\": 0.85,\n            \"alternatives\": []\n        \x7d\n        \n        Consider team consensus and weigh expert opinions appropriately.\n        "

/-- Fallback facts record of `PIAgent.extract_key_data` (returned when
`json.loads` fails). -/
def fallbackFacts : JValue :=
  .jobj [("target", .jstr "Extracted target"),
         ("timeline", .jstr "Extracted timeline"),
         ("budget", .jstr "Extracted budget"),
         ("goal", .jstr "Extracted goal"),
         ("confidence", .jnum (8/10))]

/-- Fallback strategy of `PIAgent.synthesize_strategy` (returned when
`json.loads` fails). -/
def fallbackStrategy : JValue :=
  .jobj [("title", .jstr "Modify Existing Nanobodies"),
    ("rationale", .jarr [
      .jobj [("icon", .jstr "Clock"), ("label", .jstr "Team Analysis"),
             ("description", .jstr "Based on team discussion")],
      .jobj [("icon", .jstr "TrendingUp"), ("label", .jstr "Consensus"),
             ("description", .jstr "Team reached agreement")],
      .jobj [("icon", .jstr "DollarSign"), ("label", .jstr "Feasible"),
             ("description", .jstr "Within project constraints")]]),
    ("candidates", .jarr [.jstr "Ty1", .jstr "H11-D4", .jstr "Nb21", .jstr "VHH-72"]),
    ("confidence", .jnum (7/10)),
    ("alternatives", .jarr [])]

/-- Model of `PIAgent.extract_key_data`.  Note the `try/except` of the Python body wraps
only `json.loads(response.strip())`; a raise out of `chat_completion`
propagates to the caller. -/
def extractKeyData (ctx : LabCtx) (st : LabState) (text : String) :
    Except String JValue × LabState :=
  match chatCompletion ctx st (extractPrompt text) with
  | (Except.error e, st') => (Except.error e, st')
  | (Except.ok response, st') =>
    match ctx.jsonDecode (pyStrip response) with
    | some v => (Except.ok v, st')
    | none => (Except.ok fallbackFacts, st')

/-- Model of `PIAgent.synthesize_strategy`.  Same exception structure as
`extract_key_data`: only the JSON decode is guarded. -/
def synthesizeStrategy (ctx : LabCtx) (st : LabState) (state : ProjectState) :
    Except String JValue × LabState :=
  match chatCompletion ctx st (synthesizePrompt state) with
  | (Except.error e, st') => (Except.error e, st')
  | (Except.ok response, st') =>
    match ctx.jsonDecode (pyStrip response) with
    | some v => (Except.ok v, st')
    | none => (Except.ok fallbackStrategy, st')

/-- A completion client that always raises. -/
def failCtx : LabCtx :=
  { oracle := fun _ _ => Except.error "boom",
    jsonDecode := fun _ => none,
    clock := fun _ => "t" }

/-- A completion client that returns text that does not decode as JSON. -/
def okBadJsonCtx : LabCtx :=
  { oracle := fun _ _ => Except.ok "not json",
    jsonDecode := fun _ => none,
    clock := fun _ => "t" }

/-- Fresh lab state (`self.events = []`, no completion call made yet). -/
def labInit : LabState :=
  { events := [], calls := 0 }

/-- C3 is false as stated: when the Completion Client raises, neither
extraction-type operation degrades to its fallback — the `chat_completion`
call sits outside the `try/except` (which guards only `json.loads`), so the
error propagates out of `extract_key_data` / `synthesize_strategy` to the phase
boundary instead. -/
theorem c3_counterexample_client_error :
    (extractKeyData failCtx labInit "brief").1 = Except.error "boom" ∧
      (synthesizeStrategy failCtx labInit { text := "brief" }).1 = Except.error "boom" ∧
      (Except.error "boom" : Except String JValue) ≠ Except.ok fallbackFacts ∧
      (Except.error "boom" : Except String JValue) ≠ Except.ok fallbackStrategy := by
  refine ⟨rfl, rfl, ?_, ?_⟩ <;> exact fun h => Except.noConfusion h

/-- C3 amended: only a JSON-decode failure of the model response degrades to
the deterministic fallback (facts: non-empty placeholder strings with
confidence 0.8; strategy: title "Modify Existing Nanobodies" with confidence
0.7) — a Completion Client error instead propagates out of both operations
uncaught. -/
theorem c3_amended_fallback_policy :
    ∀ (ctx : LabCtx) (st : LabState) (text : String) (state : ProjectState) (s e : String),
      (ctx.oracle st.calls (extractPrompt text) = Except.ok s →
        ctx.jsonDecode (pyStrip s) = none →
        (extractKeyData ctx st text).1 = Except.ok fallbackFacts) ∧
      (ctx.oracle st.calls (extractPrompt text) = Except.error e →
        (extractKeyData ctx st text).1 = Except.error e) ∧
      (ctx.oracle st.calls (synthesizePrompt state) = Except.ok s →
        ctx.jsonDecode (pyStrip s) = none →
        (synthesizeStrategy ctx st state).1 = Except.ok fallbackStrategy) ∧
      (ctx.oracle st.calls (synthesizePrompt state) = Except.error e →
        (synthesizeStrategy ctx st state).1 = Except.error e) ∧
      jobjLookup fallbackFacts "confidence" = some (.jnum (8/10)) ∧
      (jobjLookup fallbackFacts "target" = some (.jstr "Extracted target") ∧
        "Extracted target" ≠ "") ∧
      (jobjLookup fallbackFacts "timeline" = some (.jstr "Extracted timeline") ∧
        "Extracted timeline" ≠ "") ∧
      (jobjLookup fallbackFacts "budget" = some (.jstr "Extracted budget") ∧
        "Extracted budget" ≠ "") ∧
      (jobjLookup fallbackFacts "goal" = some (.jstr "Extracted goal") ∧
        "Extracted goal" ≠ "") ∧
      jobjLookup fallbackStrategy "title" = some (.jstr "Modify Existing Nanobodies") ∧
      jobjLookup fallbackStrategy "confidence" = some (.jnum (7/10)) := by
  intro ctx st text state s e
  refine ⟨?_, ?_, ?_, ?_, rfl, ⟨rfl, by decide⟩, ⟨rfl, by decide⟩, ⟨rfl, by decide⟩,
    ⟨rfl, by decide⟩, rfl, rfl⟩
  · intro h1 h2
    simp only [extractKeyData, chatCompletion, h1, h2]
  · intro h1
    simp only [extractKeyData, chatCompletion, h1]
  · intro h1 h2
    simp only [synthesizeStrategy, chatCompletion, h1, h2]
  · intro h1
    simp only [synthesizeStrategy, chatCompletion, h1]

theorem c3_witness :
    (extractKeyData okBadJsonCtx labInit "b").1 = Except.ok fallbackFacts ∧
      (synthesizeStrategy failCtx labInit { text := "b" }).1 = Except.error "boom" :=
  ⟨(c3_amended_fallback_policy okBadJsonCtx labInit "b" { text := "b" } "not json" "boom").1
      rfl rfl,
   (c3_amended_fallback_policy failCtx labInit "b" { text := "b" } "not json"
      "boom").2.2.2.1 rfl⟩

/-- One hardcoded workflow step dict of `VirtualLab._generate_workflow_options`. -/
structure WorkflowStep where
  id : String
  name : String
  description : String
  required : Bool
  selected : Bool
  estimated_time : String
  estimated_cost : String
  rounds : Option Nat := none
deriving Repr, DecidableEq

/-- The fixed ordered step catalog (MVP hardcoded list). -/
def workflowSteps : List WorkflowStep :=
  [{ id := "fetch_candidates", name := "Fetch Candidate Sequences",
     description := "Retrieve nanobody sequences from PDB database",
     required := true, selected := true,
     estimated_time := "2 hours", estimated_cost := "$0" },
   { id := "filter_candidates", name := "Filter Candidates",
     description := "Apply sequence and structural filters",
     required := true, selected := true,
     estimated_time := "1 hour", estimated_cost := "$0" },
   { id := "run_esm", name := "ESM Affinity Prediction",
     description := "Run ESM language model for binding affinity prediction",
     required := false, selected := true,
     estimated_time := "4 hours", estimated_cost := "$50", rounds := some 2 },
   { id := "run_alphafold", name := "AlphaFold3 Structural Prediction",
     description := "Generate 3D structures for top candidates",
     required := false, selected := true,
     estimated_time := "8 hours", estimated_cost := "$200" },
   { id := "affinity_maturation", name := "In Silico Affinity Maturation",
     description := "Optimize binding through computational mutation",
     required := false, selected := true,
     estimated_time := "12 hours", estimated_cost := "$100" },
   { id := "in_vitro_testing", name := "In Vitro Validation",
     description := "Experimental binding assays (requires lab work)",
     required := false, selected := false,
     estimated_time := "2 weeks", estimated_cost := "$15,000" }]

/-- Python type name of a JSON value, for AttributeError messages. -/
def jTypeName : JValue → String
  | .jnull => "NoneType"
  | .jbool _ => "bool"
  | .jnum _ => "float"
  | .jstr _ => "str"
  | .jarr _ => "list"
  | .jobj _ => "dict"

/-- Python `value.get(key, default)`: defined on dicts only; any other value
raises AttributeError. -/
def JValue.pyGet (v : JValue) (k : String) (dflt : JValue) : Except String JValue :=
  match v with
  | .jobj fs => Except.ok ((fs.lookup k).getD dflt)
  | w => Except.error ("\x27" ++ jTypeName w ++ "\x27 object has no attribute \x27get\x27")

/-- Python `value.lower()`: defined on strings only. -/
def JValue.pyLowerStr : JValue → Except String String
  | .jstr s => Except.ok (pyToLower s)
  | w => Except.error ("\x27" ++ jTypeName w ++ "\x27 object has no attribute \x27lower\x27")

/-- Python dict `.get(key, default)` on a well-typed `Dict[str, Any]`. -/
def dictGet (d : List (String × JValue)) (k : String) (dflt : JValue) : JValue :=
  (d.lookup k).getD dflt

/-- Python `s.replace("$", "").replace(",", "")`. -/
def stripDollarComma (s : String) : String :=
  (s.data.filter (fun c => !(c = '$' || c = ','))).asString

/-- Python `int()` on a string: optional surrounding whitespace, an optional
sign, then at least one decimal digit; `ValueError` otherwise.  (Underscore
separators and non-decimal bases are not modelled; no catalog string uses
them.) -/
def pyIntParse (s : String) : Except String Int :=
  match stripList pyIsSpace s.data with
  | '-' :: ds =>
    if !ds.isEmpty && ds.all Char.isDigit then Except.ok (-(digitsToNat ds : Int))
    else Except.error ("invalid literal for int() with base 10: \x27" ++ s ++ "\x27")
  | '+' :: ds =>
    if !ds.isEmpty && ds.all Char.isDigit then Except.ok (digitsToNat ds : Int)
    else Except.error ("invalid literal for int() with base 10: \x27" ++ s ++ "\x27")
  | ds =>
    if !ds.isEmpty && ds.all Char.isDigit then Except.ok (digitsToNat ds : Int)
    else Except.error ("invalid literal for int() with base 10: \x27" ++ s ++ "\x27")

/-- Group a reversed digit list in threes from the least significant end. -/
def groupThrees : List Char → List (List Char)
  | a :: b :: c :: d :: rest => [a, b, c] :: groupThrees (d :: rest)
  | ds => [ds]

/-- Python `f"{n:,}"` for integers: decimal digits with thousands separators. -/
def formatComma (n : Int) : String :=
  let digits := Nat.toDigits 10 n.natAbs
  let groups := (groupThrees digits.reverse).reverse.map List.reverse
  (if n < 0 then "-" else "") ++ String.intercalate "," (groups.map List.asString)

/-- The dict returned by `VirtualLab._generate_workflow_options`. -/
structure WorkflowOptions where
  steps : List WorkflowStep
  total_estimated_cost : String
  total_estimated_time : String
  budget_available : JValue
  constraints_timeline : JValue
  constraints_budget : JValue
deriving Repr

/-- Model of `VirtualLab._generate_workflow_options`: deterministic post-processing, no
model call.  `strategy` is the raw `json.loads` result, so the read of
`strategy.get("title", "").lower()` can raise on non-dict strategies or
non-string titles; `confirmed_data` is a `Dict[str, Any]` by the request
model. -/
def generateWorkflowOptions (strategy : JValue) (confirmed_data : List (String × JValue)) :
    Except String WorkflowOptions :=
  match strategy.pyGet "title" (.jstr "") with
  | Except.error e => Except.error e
  | Except.ok titleV =>
    match titleV.pyLowerStr with
    | Except.error e => Except.error e
    | Except.ok _strategy_type =>
      match (workflowSteps.filter (fun s => s.selected)).mapM
          (fun s => pyIntParse (stripDollarComma s.estimated_cost)) with
      | Except.error e => Except.error e
      | Except.ok costs =>
        Except.ok {
          steps := workflowSteps,
          total_estimated_cost := "$" ++ formatComma costs.sum,
          total_estimated_time := "~1 week (computational only)",
          budget_available := dictGet confirmed_data "budget" (.jstr "Unknown"),
          constraints_timeline := dictGet confirmed_data "timeline" (.jstr "Unknown"),
          constraints_budget := dictGet confirmed_data "budget" (.jstr "Unknown") }

/-- C4: for every strategy that is a dict whose "title" read (with default "")
yields a string — the data-model shape of a Strategy Recommendation — and
every confirmed-facts dict, the generator returns the fixed ordered six-step
catalog in which only the in-vitro-validation step is unselected, and the
total cost is the sum 0+0+50+200+100 = 350 of the parsed numeric portions of
the selected steps' cost strings, rendered as the currency string "$350". -/
theorem c4_workflow_catalog_and_total :
    ∀ (strategy : JValue) (cd : List (String × JValue)) (t : String),
      strategy.pyGet "title" (.jstr "") = Except.ok (.jstr t) →
      generateWorkflowOptions strategy cd = Except.ok {
          steps := workflowSteps,
          total_estimated_cost := "$350",
          total_estimated_time := "~1 week (computational only)",
          budget_available := dictGet cd "budget" (.jstr "Unknown"),
          constraints_timeline := dictGet cd "timeline" (.jstr "Unknown"),
          constraints_budget := dictGet cd "budget" (.jstr "Unknown") } ∧
        workflowSteps.length = 6 ∧
        workflowSteps.map (fun s => s.id) = ["fetch_candidates", "filter_candidates",
          "run_esm", "run_alphafold", "affinity_maturation", "in_vitro_testing"] ∧
        (∀ s ∈ workflowSteps, s.selected = true ↔ s.id ≠ "in_vitro_testing") ∧
        (workflowSteps.filter (fun s => s.selected)).mapM
            (fun s => pyIntParse (stripDollarComma s.estimated_cost)) =
          Except.ok [0, 0, 50, 200, 100] ∧
        ([0, 0, 50, 200, 100] : List Int).sum = 350 := by
  intro strategy cd t h
  refine ⟨?_, rfl, rfl, by decide, rfl, by decide⟩
  simp only [generateWorkflowOptions, h, JValue.pyLowerStr]
  rfl

theorem c4_witness :
    generateWorkflowOptions (JValue.jobj [("title", JValue.jstr "De Novo Design")]) []
      = Except.ok {
          steps := workflowSteps,
          total_estimated_cost := "$350",
          total_estimated_time := "~1 week (computational only)",
          budget_available := JValue.jstr "Unknown",
          constraints_timeline := JValue.jstr "Unknown",
          constraints_budget := JValue.jstr "Unknown" } :=
  (c4_workflow_catalog_and_total (.jobj [("title", .jstr "De Novo Design")]) []
    "De Novo Design" rfl).1

/-- Prompt of `ImmunologistAgent._get_analysis_prompt`. -/
def immunologistPrompt (state : ProjectState) : String :=
  "\n        You are an Immunologist with expertise in antibody biology, immune responses, target druggability, nanobody engineering.\n        \n        PROJECT BRIEF:\n        " ++
    state.text ++
    "\n        \n        PREVIOUS TEAM DISCUSSION:\n        " ++
    previousInputsText state.agent_inputs ++
    "\n        \n        From your immunology perspective, analyze:\n        1. Target biology and druggability\n        2. Likelihood existing nanobodies exist for this target\n        3. Therapeutic vs research tool considerations\n        4. Your recommendation: \"Modify Existing Nanobodies\" or \"De Novo Design\"\n        \n        Format your response with:\n        - Clear analysis of the immunology aspects\n        - Your recommendation with reasoning\n        - Confidence level (0.0-1.0)\n        - Key considerations for the team\n        "

/-- Prompt of `MLSpecialistAgent._get_analysis_prompt`. -/
def mlSpecialistPrompt (state : ProjectState) : String :=
  "\n        You are an ML Specialist with expertise in protein language models (ESM), structure prediction (AlphaFold), computational protein design.\n        \n        PROJECT BRIEF:\n        " ++
    state.text ++
    "\n        \n        PREVIOUS TEAM DISCUSSION:\n        " ++
    previousInputsText state.agent_inputs ++
    "\n        \n        From your ML/computational perspective, analyze:\n        1. Computational feasibility given timeline and budget\n        2. Available tools (ESM, AlphaFold, Rosetta) suitability\n        3. Data requirements and availability\n        4. Your recommendation: \"Modify Existing Nanobodies\" or \"De Novo Design\"\n        \n        Consider that modification requires existing scaffolds while de novo needs more compute.\n        "

/-- Prompt of `CompBiologistAgent._get_analysis_prompt`. -/
def compBiologistPrompt (state : ProjectState) : String :=
  "\n        You are a Computational Biologist with expertise in protein design workflows, molecular dynamics, Rosetta, experimental validation.\n        \n        PROJECT BRIEF:\n        " ++
    state.text ++
    "\n        \n        PREVIOUS TEAM DISCUSSION:\n        " ++
    previousInputsText state.agent_inputs ++
    "\n        \n        From your computational implementation perspective, analyze:\n        1. Workflow design and implementation feasibility  \n        2. Resource requirements (compute, time, expertise)\n        3. Expected success rates for different approaches\n        4. Your recommendation: \"Modify Existing Nanobodies\" or \"De Novo Design\"\n        \n        Focus on practical implementation and what\x27s actually achievable.\n        "

/-- Model of `BaseAgent.provide_input`: exactly one completion call, then
`_parse_response`; the possible raises are the completion failure and the
parser ValueError, neither of which is caught here. -/
def provideInput (ctx : LabCtx) (st : LabState) (role : String) (prompt : String) :
    Except String AgentInput × LabState :=
  match chatCompletion ctx st prompt with
  | (Except.error e, st') => (Except.error e, st')
  | (Except.ok response, st') =>
    match parseResponse response with
    | Except.error e => (Except.error e, st')
    | Except.ok p =>
      (Except.ok ⟨role, p.analysis, p.recommendation, p.confidence, p.reasoning⟩, st')

/-- Return value of `VirtualLab.analyze_brief`.  The success and error dicts
have different key sets, which the two constructors mirror. -/
inductive Phase1Result where
  | success (extracted_data : JValue) (status checkpoint : String)
      (progress_events : List Event)
  | failure (extracted_data : JValue) (status error : String)
      (progress_events : List Event)
deriving Repr

/-- Return value of `VirtualLab.generate_full_analysis`.  The error dict
carries no `workflow_options` and no `agent_insights` keys: partial opinions
are absent from a failure payload by construction. -/
inductive Phase2Result where
  | success (extracted_data : List (String × JValue)) (strategy : JValue)
      (workflow_options : WorkflowOptions)
      (immunologist ml_specialist comp_biologist : AgentInput)
      (status checkpoint : String) (progress_events : List Event)
  | failure (extracted_data : List (String × JValue)) (strategy : JValue)
      (status error : String) (progress_events : List Event)
deriving Repr

/-- Model of `VirtualLab.analyze_brief` (Phase 1).  Each route request constructs a
fresh `VirtualLab` and the method resets `self.events`, so the run starts from
`labInit`.  Inside the `try`, the only fallible operation is
`extract_key_data`; the `except` clause emits the Error event and returns the
error dict with `extracted_data = {}`. -/
def analyzeBrief (ctx : LabCtx) (text : String) : Phase1Result :=
  let st := emitEvent ctx labInit "step_start" "Analyzing Project Brief" 0
    "Reading and interpreting your document..." (some "Principal Investigator")
  match extractKeyData ctx st text with
  | (Except.error e, st') =>
    let st2 := emitEvent ctx st' "error" "Analysis Error" 0
      ("Error during extraction: " ++ e) none
    Phase1Result.failure (.jobj []) "error" e st2.events
  | (Except.ok extracted, st') =>
    let st2 := emitEvent ctx st' "step_complete" "Brief Analysis Complete" 100
      "Key information extracted - ready for your confirmation"
      (some "Principal Investigator")
    Phase1Result.success extracted "awaiting_confirmation" "understanding_confirmation"
      st2.events

/-- Python `state.metadata = {"confirmed_parameters": confirmed_data}` where
`state` is the pydantic model `ProjectState`: the class declares no `metadata`
field and does not set `extra="allow"`, and pydantic's `BaseModel.__setattr__`
(v1 and v2 alike) rejects assignment to an undeclared field with
`ValueError: "ProjectState" object has no field "metadata"`. -/
def setStateMetadata (_state : ProjectState) (_v : List (String × JValue)) :
    Except String ProjectState :=
  Except.error "\"ProjectState\" object has no field \"metadata\""

/-- The `except` clause of `generate_full_analysis`: emit the Error event and
return the error dict (`extracted_data` = confirmed facts passthrough,
`strategy = {}`). -/
def phase2Fail (ctx : LabCtx) (st : LabState) (confirmed_data : List (String × JValue))
    (e : String) : Phase2Result :=
  let st2 := emitEvent ctx st "error" "Analysis Error" 0
    ("Error during analysis: " ++ e) none
  Phase2Result.failure confirmed_data (.jobj []) "error" e st2.events

/-- Model of `VirtualLab.generate_full_analysis` (Phase 2): the strictly sequential,
context-accumulating pipeline with its fixed progress milestones.  Every
fallible step routes to `phase2Fail` exactly as the single `try/except` does. -/
def generateFullAnalysis (ctx : LabCtx) (text : String)
    (confirmed_data : List (String × JValue)) : Phase2Result :=
  let state : ProjectState := { text := text }
  let st := emitEvent ctx labInit "step_start" "Initializing Virtual Lab" 0
    "Starting multi-agent analysis with confirmed parameters..."
    (some "Principal Investigator")
  match setStateMetadata state confirmed_data with
  | Except.error e => phase2Fail ctx st confirmed_data e
  | Except.ok state =>
    let st := emitEvent ctx st "step_complete" "Virtual Lab Initialized" 5
      "Team assembled and ready" (some "Principal Investigator")
    let st := emitEvent ctx st "agent_thinking" "Immunological Analysis" 15
      "Analyzing antigen properties, epitope mapping, and binding requirements..."
      (some "Immunologist")
    match provideInput ctx st "Immunologist" (immunologistPrompt state) with
    | (Except.error e, st') => phase2Fail ctx st' confirmed_data e
    | (Except.ok immunologist_input, st') =>
      let state := { state with agent_inputs := state.agent_inputs ++ [immunologist_input] }
      let st := emitEvent ctx st' "step_complete" "Immunological Analysis Complete" 30
        "Immunological assessment complete - recommendations documented"
        (some "Immunologist")
      let st := emitEvent ctx st "agent_thinking" "Machine Learning Analysis" 35
        "Evaluating ML approaches, model selection, and data requirements..."
        (some "ML Specialist")
      match provideInput ctx st "ML Specialist" (mlSpecialistPrompt state) with
      | (Except.error e, st') => phase2Fail ctx st' confirmed_data e
      | (Except.ok ml_input, st') =>
        let state := { state with agent_inputs := state.agent_inputs ++ [ml_input] }
        let st := emitEvent ctx st' "step_complete" "ML Analysis Complete" 50
          "ML strategy and computational approach defined" (some "ML Specialist")
        let st := emitEvent ctx st "agent_thinking" "Computational Biology Analysis" 55
          "Performing structural analysis, sequence optimization, and modeling..."
          (some "Computational Biologist")
        match provideInput ctx st "Computational Biologist" (compBiologistPrompt state) with
        | (Except.error e, st') => phase2Fail ctx st' confirmed_data e
        | (Except.ok comp_bio_input, st') =>
          let state := { state with agent_inputs := state.agent_inputs ++ [comp_bio_input] }
          let st := emitEvent ctx st' "step_complete" "Computational Biology Complete" 70
            "Structural insights and sequence recommendations ready"
            (some "Computational Biologist")
          let st := emitEvent ctx st "agent_thinking" "Strategy Synthesis" 75
            "Synthesizing team insights into comprehensive strategy..."
            (some "Principal Investigator")
          match synthesizeStrategy ctx st state with
          | (Except.error e, st') => phase2Fail ctx st' confirmed_data e
          | (Except.ok strategy, st') =>
            let st := emitEvent ctx st' "step_complete" "Strategy Synthesis Complete" 90
              "Strategy synthesized - generating workflow options..."
              (some "Principal Investigator")
            let st := emitEvent ctx st "step_start" "Workflow Construction" 92
              "Building execution workflow with selectable steps..."
              (some "Principal Investigator")
            match generateWorkflowOptions strategy confirmed_data with
            | Except.error e => phase2Fail ctx st confirmed_data e
            | Except.ok workflow_options =>
              let st := emitEvent ctx st "step_complete" "Analysis Complete" 100
                "Full analysis complete - ready for your review and selection"
                (some "Principal Investigator")
              Phase2Result.success confirmed_data strategy workflow_options
                immunologist_input ml_input comp_bio_input
                "awaiting_workflow_selection" "workflow_selection" st.events

/-- C5: the claim quantifies over successful runs, but the code admits none.
The assignment `state.metadata = {...}` at the top of the phase raises
`ValueError` under pydantic (`ProjectState` declares no `metadata` field), so
every run of `generate_full_analysis`, for every completion-client behaviour,
takes the except path and returns the structured error payload whose only two
events both carry progress 0 — the 0..100 milestone schedule is never
emitted. -/
theorem c5_phase2_always_fails_metadata :
    ∀ (ctx : LabCtx) (text : String) (cd : List (String × JValue)),
      generateFullAnalysis ctx text cd =
        Phase2Result.failure cd (.jobj []) "error"
          "\"ProjectState\" object has no field \"metadata\""
          [⟨"step_start", ctx.clock 0, "Initializing Virtual Lab",
            some "Principal Investigator", 0,
            "Starting multi-agent analysis with confirmed parameters..."⟩,
           ⟨"error", ctx.clock 1, "Analysis Error", none, 0,
            "Error during analysis: \"ProjectState\" object has no field \"metadata\""⟩] := by
  intro ctx text cd
  rfl

/-- C1: the phases never raise past their own boundary — both phase functions
are total in the model, and every internal failure is caught and returned as
data: Phase 1 failures yield `extracted_data = {}`, status "error", the
failure description, and an Error event appended to the log carrying the
description; Phase 2 failures yield `extracted_data` = the confirmed facts
passthrough, `strategy = {}`, status "error", the description, an appended
Error event, and — by the shape of the failure payload, which has no
agent-insight or workflow fields — partial opinions collected before the
failure are absent from the returned payload. -/
theorem c1_phase_boundary_error_contract :
    ∀ (ctx : LabCtx) (text : String) (cd : List (String × JValue)),
      (∀ ed status err evs,
        analyzeBrief ctx text = Phase1Result.failure ed status err evs →
        ed = .jobj [] ∧ status = "error" ∧
        ∃ pre, evs = pre ++
          [⟨"error", ctx.clock pre.length, "Analysis Error", none, 0,
            "Error during extraction: " ++ err⟩]) ∧
      (∀ ed strat status err evs,
        generateFullAnalysis ctx text cd = Phase2Result.failure ed strat status err evs →
        ed = cd ∧ strat = .jobj [] ∧ status = "error" ∧
        ∃ pre, evs = pre ++
          [⟨"error", ctx.clock pre.length, "Analysis Error", none, 0,
            "Error during analysis: " ++ err⟩]) := by
  intro ctx text cd
  constructor
  · intro ed status err evs h
    simp only [analyzeBrief] at h
    split at h
    · injection h with h1 h2 h3 h4
      refine ⟨h1.symm, h2.symm, ?_⟩
      rw [← h4, ← h3]
      exact ⟨_, rfl⟩
    · exact Phase1Result.noConfusion h
  · intro ed strat status err evs h
    have hg : generateFullAnalysis ctx text cd =
        Phase2Result.failure cd (.jobj []) "error"
          "\"ProjectState\" object has no field \"metadata\""
          [⟨"step_start", ctx.clock 0, "Initializing Virtual Lab",
            some "Principal Investigator", 0,
            "Starting multi-agent analysis with confirmed parameters..."⟩,
           ⟨"error", ctx.clock 1, "Analysis Error", none, 0,
            "Error during analysis: \"ProjectState\" object has no field \"metadata\""⟩] := rfl
    rw [hg] at h
    injection h with h1 h2 h3 h4 h5
    refine ⟨h1.symm, h2.symm, h3.symm, ?_⟩
    rw [← h5, ← h4]
    exact ⟨[⟨"step_start", ctx.clock 0, "Initializing Virtual Lab",
      some "Principal Investigator", 0,
      "Starting multi-agent analysis with confirmed parameters..."⟩], rfl⟩

theorem c1_witness :
    (JValue.jobj [] : JValue) = JValue.jobj [] ∧ "error" = "error" ∧
      ∃ pre, ([⟨"step_start", "t", "Analyzing Project Brief",
          some "Principal Investigator", 0,
          "Reading and interpreting your document..."⟩,
        ⟨"error", "t", "Analysis Error", none, 0,
          "Error during extraction: boom"⟩] : List Event) = pre ++
          [⟨"error", failCtx.clock pre.length, "Analysis Error", none, 0,
            "Error during extraction: " ++ "boom"⟩] :=
  (c1_phase_boundary_error_contract failCtx "brief" []).1 (.jobj []) "error" "boom"
    [⟨"step_start", "t", "Analyzing Project Brief", some "Principal Investigator", 0,
      "Reading and interpreting your document..."⟩,
     ⟨"error", "t", "Analysis Error", none, 0, "Error during extraction: boom"⟩] rfl

/-- The `final_workflow_selections` dict stored by `finalize_workflow`. -/
structure WorkflowSelections where
  selected_steps : List String
  modifications : Option JValue := none
  user_notes : Option String := none
deriving Repr

/-- One entry of `project_sessions`: keys that are absent until a later request
writes them are `Option` fields. -/
structure Session where
  project_id : String
  filename : String
  original_text : String
  extracted_data : JValue
  phase : String
  checkpoint_1_events : List Event
  created_at : String
  updated_at : String
  confirmed_data : Option (List (String × JValue)) := none
  user_modified_extraction : Option Bool := none
  checkpoint_1_confirmed_at : Option String := none
  strategy : Option JValue := none
  workflow_options : Option WorkflowOptions := none
  agent_insights : Option (AgentInput × AgentInput × AgentInput) := none
  checkpoint_2_events : Option (List Event) := none
  final_workflow_selections : Option WorkflowSelections := none
  finalized_at : Option String := none
deriving Repr

/-- The in-memory `project_sessions` dict. -/
abbrev Store := List (String × Session)

/-- Python `project_sessions[k] = v` (dict write: replace the entry in place). -/
def storeSet (store : Store) (k : String) (v : Session) : Store :=
  match store with
  | [] => [(k, v)]
  | (k2, v2) :: rest => if k2 = k then (k, v) :: rest else (k2, v2) :: storeSet rest k v

/-- Model of `ConfirmDataRequest` (checkpoint-1 confirmation body). -/
structure ConfirmDataRequest where
  project_id : String
  confirmed_data : List (String × JValue)
  user_modified : Bool := false
deriving Repr

/-- Model of `WorkflowSelectionRequest` (checkpoint-2 selection body). -/
structure WorkflowSelectionRequest where
  project_id : String
  selected_steps : List String
  modifications : Option JValue := none
  user_notes : Option String := none
deriving Repr

/-- The JSON body returned by `/confirm-understanding` on success. -/
structure ConfirmResponse where
  success : Bool
  project_id : String
  extracted_data : List (String × JValue)
  strategy : JValue
  workflow_options : WorkflowOptions
  status : String
  checkpoint : String
  progress_events : List Event
  message : String
  processed_at : String
deriving Repr

/-- The JSON body returned by `/finalize-workflow` on success. -/
structure FinalizeResponse where
  success : Bool
  project_id : String
  status : String
  message : String
  final_workflow : List WorkflowStep
  share_url : String
  finalized_at : String
deriving Repr

/-- Handler of `/confirm-understanding` (non-streaming).  An `.error (status, detail)` is a
raised `HTTPException`; the store component carries the in-place dict mutations
performed before any raise.  `rclock n` is the n-th `datetime.utcnow()` call of
the handler. -/
def confirmUnderstanding (store : Store) (req : ConfirmDataRequest) (ctx : LabCtx)
    (rclock : Nat → String) : Except (Nat × String) ConfirmResponse × Store :=
  match store.lookup req.project_id with
  | none => (Except.error (404, "Project not found"), store)
  | some session =>
    if session.phase ≠ "checkpoint_1" then
      (Except.error (400, "Project is in phase \x27" ++ session.phase ++
        "\x27, expected \x27checkpoint_1\x27"), store)
    else
      let session1 := { session with
        confirmed_data := some req.confirmed_data,
        user_modified_extraction := some req.user_modified,
        checkpoint_1_confirmed_at := some (rclock 0) }
      let store1 := storeSet store req.project_id session1
      match generateFullAnalysis ctx session.original_text req.confirmed_data with
      | Phase2Result.failure _ _ _ err _ =>
        (Except.error (500, err), store1)
      | Phase2Result.success ed strat wo imm ml cb status checkpoint evs =>
        let session2 := { session1 with
          strategy := some strat,
          workflow_options := some wo,
          agent_insights := some (imm, ml, cb),
          phase := "checkpoint_2",
          checkpoint_2_events := some evs,
          updated_at := rclock 1 }
        (Except.ok
          { success := true, project_id := req.project_id, extracted_data := ed,
            strategy := strat, workflow_options := wo, status := status,
            checkpoint := checkpoint, progress_events := evs,
            message := "Analysis complete! Please review the workflow options.",
            processed_at := rclock 2 },
          storeSet store1 req.project_id session2)

/-- The messages sent over the SSE stream of `/confirm-understanding-stream`. -/
inductive SSEMessage where
  | progress (event : Event)
  | complete (project_id : String) (extracted_data : List (String × JValue))
      (strategy : JValue) (workflow_options : WorkflowOptions)
      (status checkpoint : String)
  | errorMsg (error : String)
deriving Repr

/-- Progress messages yielded by the polling loop of `event_generator`:
`obs` is the sequence of lengths of `all_events` observed at the poll instants
while the task runs (`last` is `last_event_count`); each poll yields the slice
of new events, and once the task is done the remainder is flushed. -/
def deliverFrom (evs : List Event) : Nat → List Nat → List SSEMessage
  | last, [] => (evs.drop last).map SSEMessage.progress
  | last, n :: rest =>
    ((evs.drop last).take (n - last)).map SSEMessage.progress ++ deliverFrom evs n rest

/-- Handler of `/confirm-understanding-stream`.  The callback list `all_events` receives
exactly the run's emitted events in order, which is also the result's
`progress_events`; the generator streams its growing prefixes and closes with
exactly one terminal message. -/
def confirmUnderstandingStream (store : Store) (req : ConfirmDataRequest) (ctx : LabCtx)
    (rclock : Nat → String) (obs : List Nat) :
    Except (Nat × String) (List SSEMessage) × Store :=
  match store.lookup req.project_id with
  | none => (Except.error (404, "Project not found"), store)
  | some session =>
    if session.phase ≠ "checkpoint_1" then
      (Except.error (400, "Project is in phase \x27" ++ session.phase ++
        "\x27, expected \x27checkpoint_1\x27"), store)
    else
      let session1 := { session with
        confirmed_data := some req.confirmed_data,
        user_modified_extraction := some req.user_modified,
        checkpoint_1_confirmed_at := some (rclock 0) }
      let store1 := storeSet store req.project_id session1
      match generateFullAnalysis ctx session.original_text req.confirmed_data with
      | Phase2Result.failure _ _ _ err evs =>
        (Except.ok (deliverFrom evs 0 obs ++ [SSEMessage.errorMsg err]), store1)
      | Phase2Result.success ed strat wo imm ml cb status checkpoint evs =>
        let session2 := { session1 with
          strategy := some strat,
          workflow_options := some wo,
          agent_insights := some (imm, ml, cb),
          phase := "checkpoint_2",
          checkpoint_2_events := some evs,
          updated_at := rclock 1 }
        (Except.ok (deliverFrom evs 0 obs ++
          [SSEMessage.complete req.project_id ed strat wo status checkpoint]),
          storeSet store1 req.project_id session2)

/-- Handler of `/finalize-workflow`.  The session mutations (selections, phase, stamps)
happen before `session["workflow_options"]["steps"]` is read, so they persist
even if that read fails (a `KeyError` that FastAPI surfaces as a plain 500). -/
def finalizeWorkflow (store : Store) (req : WorkflowSelectionRequest)
    (rclock : Nat → String) : Except (Nat × String) FinalizeResponse × Store :=
  match store.lookup req.project_id with
  | none => (Except.error (404, "Project not found"), store)
  | some session =>
    if session.phase ≠ "checkpoint_2" then
      (Except.error (400, "Project is in phase \x27" ++ session.phase ++
        "\x27, expected \x27checkpoint_2\x27"), store)
    else
      let session1 := { session with
        final_workflow_selections :=
          some ⟨req.selected_steps, req.modifications, req.user_notes⟩,
        phase := "finalized",
        finalized_at := some (rclock 0),
        updated_at := rclock 1 }
      let store1 := storeSet store req.project_id session1
      match session1.workflow_options with
      | none => (Except.error (500, "Internal Server Error"), store1)
      | some wo =>
        (Except.ok
          { success := true, project_id := req.project_id,
            status := "finalized",
            message := "Workflow finalized and ready to share with team",
            final_workflow := wo.steps.filter (fun s => req.selected_steps.contains s.id),
            share_url := "/api/report/" ++ req.project_id,
            finalized_at := rclock 2 },
          store1)

/-- Phase of a session id in the store; `none` when absent. -/
def storePhase (store : Store) (id : String) : Option String :=
  (store.lookup id).map (fun s => s.phase)

/-- One request either leaves a session's phase unchanged or advances it one
step along checkpoint_1 → checkpoint_2 → finalized; it never regresses and
never leaves the three-state chain. -/
def PhaseStep (old new : Option String) : Prop :=
  new = old ∨
    (old = some "checkpoint_1" ∧ new = some "checkpoint_2") ∨
    (old = some "checkpoint_2" ∧ new = some "finalized")

theorem lookup_cons_beq {β : Type} (a k : String) (b : β) (es : List (String × β)) :
    List.lookup a ((k, b) :: es) = if a = k then some b else List.lookup a es := by
  cases hab : a == k with
  | true =>
    have h : a = k := by simpa using hab
    simp [List.lookup, hab, h]
  | false =>
    have h : ¬ a = k := by simpa using hab
    simp [List.lookup, hab, h]

theorem storeSet_lookup (store : Store) (k : String) (v : Session) (id : String) :
    (storeSet store k v).lookup id = if id = k then some v else store.lookup id := by
  induction store with
  | nil =>
    simp only [storeSet]
    rw [lookup_cons_beq]
  | cons hd tl ih =>
    obtain ⟨k2, v2⟩ := hd
    simp only [storeSet]
    by_cases hk : k2 = k
    · rw [if_pos hk, lookup_cons_beq, lookup_cons_beq, hk]
      by_cases hik : id = k <;> simp [hik]
    · rw [if_neg hk, lookup_cons_beq, lookup_cons_beq, ih]
      by_cases hik : id = k2
      · subst hik
        simp [hk]
      · simp [hik]

theorem storePhase_storeSet (store : Store) (k : String) (v : Session) (id : String) :
    storePhase (storeSet store k v) id =
      if id = k then some v.phase else storePhase store id := by
  unfold storePhase
  rw [storeSet_lookup]
  by_cases h : id = k <;> simp [h]

/-- C8: the phase guards of the confirm/finalize operations, and phase
monotonicity: an out-of-phase confirm (either variant) or finalize always
yields the 400 phase-mismatch error and leaves the store unchanged (never a
silent no-op), and every one of these handlers moves each session's phase
along the chain checkpoint_1 → checkpoint_2 → finalized by at most one step,
never regressing and never leaving the chain. -/
theorem c8_phase_guards_and_monotonicity :
    ∀ (store : Store) (ctx : LabCtx) (rclock : Nat → String) (obs : List Nat)
      (creq : ConfirmDataRequest) (wreq : WorkflowSelectionRequest)
      (sessC sessW : Session),
      (store.lookup creq.project_id = some sessC → sessC.phase ≠ "checkpoint_1" →
        confirmUnderstanding store creq ctx rclock =
          (Except.error (400, "Project is in phase \x27" ++ sessC.phase ++
            "\x27, expected \x27checkpoint_1\x27"), store) ∧
        confirmUnderstandingStream store creq ctx rclock obs =
          (Except.error (400, "Project is in phase \x27" ++ sessC.phase ++
            "\x27, expected \x27checkpoint_1\x27"), store)) ∧
      (store.lookup wreq.project_id = some sessW → sessW.phase ≠ "checkpoint_2" →
        finalizeWorkflow store wreq rclock =
          (Except.error (400, "Project is in phase \x27" ++ sessW.phase ++
            "\x27, expected \x27checkpoint_2\x27"), store)) ∧
      (∀ id, PhaseStep (storePhase store id)
        (storePhase (confirmUnderstanding store creq ctx rclock).2 id)) ∧
      (∀ id, PhaseStep (storePhase store id)
        (storePhase (confirmUnderstandingStream store creq ctx rclock obs).2 id)) ∧
      (∀ id, PhaseStep (storePhase store id)
        (storePhase (finalizeWorkflow store wreq rclock).2 id)) := by
  intro store ctx rclock obs creq wreq sessC sessW
  refine ⟨?_, ?_, ?_, ?_, ?_⟩
  · intro hl hp
    constructor
    · simp only [confirmUnderstanding, hl, if_pos hp]
    · simp only [confirmUnderstandingStream, hl, if_pos hp]
  · intro hl hp
    simp only [finalizeWorkflow, hl, if_pos hp]
  · intro id
    cases hl : store.lookup creq.project_id with
    | none =>
      simp only [confirmUnderstanding, hl]
      exact Or.inl rfl
    | some sess =>
      by_cases hp : sess.phase ≠ "checkpoint_1"
      · simp only [confirmUnderstanding, hl, if_pos hp]
        exact Or.inl rfl
      · simp only [confirmUnderstanding, hl, if_neg hp]
        rw [show generateFullAnalysis ctx sess.original_text creq.confirmed_data =
          Phase2Result.failure creq.confirmed_data (.jobj []) "error"
            "\"ProjectState\" object has no field \"metadata\""
            [⟨"step_start", ctx.clock 0, "Initializing Virtual Lab",
              some "Principal Investigator", 0,
              "Starting multi-agent analysis with confirmed parameters..."⟩,
             ⟨"error", ctx.clock 1, "Analysis Error", none, 0,
              "Error during analysis: \"ProjectState\" object has no field \"metadata\""⟩]
          from rfl]
        rw [storePhase_storeSet]
        by_cases hid : id = creq.project_id
        · subst hid
          refine Or.inl ?_
          simp [storePhase, hl]
        · simp only [if_neg hid]
          exact Or.inl rfl
  · intro id
    cases hl : store.lookup creq.project_id with
    | none =>
      simp only [confirmUnderstandingStream, hl]
      exact Or.inl rfl
    | some sess =>
      by_cases hp : sess.phase ≠ "checkpoint_1"
      · simp only [confirmUnderstandingStream, hl, if_pos hp]
        exact Or.inl rfl
      · simp only [confirmUnderstandingStream, hl, if_neg hp]
        rw [show generateFullAnalysis ctx sess.original_text creq.confirmed_data =
          Phase2Result.failure creq.confirmed_data (.jobj []) "error"
            "\"ProjectState\" object has no field \"metadata\""
            [⟨"step_start", ctx.clock 0, "Initializing Virtual Lab",
              some "Principal Investigator", 0,
              "Starting multi-agent analysis with confirmed parameters..."⟩,
             ⟨"error", ctx.clock 1, "Analysis Error", none, 0,
              "Error during analysis: \"ProjectState\" object has no field \"metadata\""⟩]
          from rfl]
        rw [storePhase_storeSet]
        by_cases hid : id = creq.project_id
        · subst hid
          refine Or.inl ?_
          simp [storePhase, hl]
        · simp only [if_neg hid]
          exact Or.inl rfl
  · intro id
    cases hl : store.lookup wreq.project_id with
    | none =>
      simp only [finalizeWorkflow, hl]
      exact Or.inl rfl
    | some sess =>
      by_cases hp : sess.phase ≠ "checkpoint_2"
      · simp only [finalizeWorkflow, hl, if_pos hp]
        exact Or.inl rfl
      · have hp2 : sess.phase = "checkpoint_2" := not_not.mp hp
        simp only [finalizeWorkflow, hl, if_neg hp]
        by_cases hid : id = wreq.project_id
        · subst hid
          cases hwo : sess.workflow_options with
          | none =>
            simp only [hwo]
            rw [storePhase_storeSet]
            refine Or.inr (Or.inr ⟨?_, ?_⟩)
            · simp [storePhase, hl, hp2]
            · simp
          | some wo =>
            simp only [hwo]
            rw [storePhase_storeSet]
            refine Or.inr (Or.inr ⟨?_, ?_⟩)
            · simp [storePhase, hl, hp2]
            · simp
        · cases hwo : sess.workflow_options with
          | none =>
            simp only [hwo]
            rw [storePhase_storeSet]
            simp only [if_neg hid]
            exact Or.inl rfl
          | some wo =>
            simp only [hwo]
            rw [storePhase_storeSet]
            simp only [if_neg hid]
            exact Or.inl rfl

/-- A checkpoint-1 session used as a concrete witness input. -/
def sessionCk1 : Session :=
  { project_id := "p1", filename := "f.txt", original_text := "brief",
    extracted_data := fallbackFacts, phase := "checkpoint_1",
    checkpoint_1_events := [], created_at := "t0", updated_at := "t0" }

/-- A checkpoint-2 session with a stored catalog, used as a concrete witness
input. -/
def sessionCk2 : Session :=
  { project_id := "p2", filename := "g.txt", original_text := "brief2",
    extracted_data := fallbackFacts, phase := "checkpoint_2",
    checkpoint_1_events := [], created_at := "t0", updated_at := "t0",
    workflow_options := some
      { steps := workflowSteps, total_estimated_cost := "$350",
        total_estimated_time := "~1 week (computational only)",
        budget_available := JValue.jstr "Unknown",
        constraints_timeline := JValue.jstr "Unknown",
        constraints_budget := JValue.jstr "Unknown" } }

/-- A two-session store used as a concrete witness input. -/
def storeW : Store := [("p1", sessionCk1), ("p2", sessionCk2)]

theorem c8_witness :
    confirmUnderstanding storeW { project_id := "p2", confirmed_data := [] } failCtx
        (fun _ => "t") =
      (Except.error (400,
        "Project is in phase \x27checkpoint_2\x27, expected \x27checkpoint_1\x27"), storeW) ∧
    finalizeWorkflow storeW { project_id := "p1", selected_steps := [] } (fun _ => "t") =
      (Except.error (400,
        "Project is in phase \x27checkpoint_1\x27, expected \x27checkpoint_2\x27"), storeW) :=
  ⟨((c8_phase_guards_and_monotonicity storeW failCtx (fun _ => "t") []
      { project_id := "p2", confirmed_data := [] }
      { project_id := "p1", selected_steps := [] } sessionCk2 sessionCk1).1 rfl
      (by decide)).1,
   (c8_phase_guards_and_monotonicity storeW failCtx (fun _ => "t") []
      { project_id := "p2", confirmed_data := [] }
      { project_id := "p1", selected_steps := [] } sessionCk2 sessionCk1).2.1 rfl
      (by decide)⟩

/-- Event log of a phase-2 result (both payload shapes return `self.events`). -/
def Phase2Result.events : Phase2Result → List Event
  | .success _ _ _ _ _ _ _ _ evs => evs
  | .failure _ _ _ _ evs => evs

theorem deliverFrom_eq (evs : List Event) :
    ∀ (obs : List Nat) (last : Nat), List.Chain (· ≤ ·) last obs →
      deliverFrom evs last obs = (evs.drop last).map SSEMessage.progress := by
  intro obs
  induction obs with
  | nil => intro last _; rfl
  | cons n rest ih =>
    intro last hchain
    cases hchain with
    | cons hln htail =>
      simp only [deliverFrom]
      rw [ih n htail, ← List.map_append]
      congr 1
      have hdd : evs.drop n = (evs.drop last).drop (n - last) := by
        rw [List.drop_drop]
        congr 1
        omega
      rw [hdd, List.take_append_drop]

/-- C9: in the streaming delivery of Phase 2, with the poll observations
forming a monotone sequence of observed event counts (the shared list only
grows and `last_event_count` only advances), every progress event emitted by
the producing task is delivered to the consumer exactly once, in emission
order, and the stream ends with exactly one terminal message — either a
completion payload or an error payload, never a progress event. -/
theorem c9_stream_delivery_exact_once :
    ∀ (store : Store) (req : ConfirmDataRequest) (ctx : LabCtx)
      (rclock : Nat → String) (obs : List Nat) (sess : Session),
      store.lookup req.project_id = some sess →
      sess.phase = "checkpoint_1" →
      List.Chain (· ≤ ·) 0 obs →
      ∃ (msgs : List SSEMessage) (store2 : Store) (terminal : SSEMessage),
        confirmUnderstandingStream store req ctx rclock obs = (Except.ok msgs, store2) ∧
        msgs = (generateFullAnalysis ctx sess.original_text req.confirmed_data).events.map
            SSEMessage.progress ++ [terminal] ∧
        (∀ e : Event, terminal ≠ SSEMessage.progress e) := by
  intro store req ctx rclock obs sess hl hp hchain
  have hp2 : ¬ sess.phase ≠ "checkpoint_1" := fun h => h hp
  cases hg : generateFullAnalysis ctx sess.original_text req.confirmed_data with
  | failure ed strat status err evs =>
    refine ⟨deliverFrom evs 0 obs ++ [SSEMessage.errorMsg err],
      storeSet store req.project_id
        { sess with
          confirmed_data := some req.confirmed_data,
          user_modified_extraction := some req.user_modified,
          checkpoint_1_confirmed_at := some (rclock 0) },
      SSEMessage.errorMsg err, ?_, ?_, ?_⟩
    · simp only [confirmUnderstandingStream, hl, if_neg hp2, hg]
    · simp only [Phase2Result.events]
      rw [deliverFrom_eq evs obs 0 hchain, List.drop_zero]
    · intro e h
      exact SSEMessage.noConfusion h
  | success ed strat wo imm ml cb status checkpoint evs =>
    refine ⟨deliverFrom evs 0 obs ++
      [SSEMessage.complete req.project_id ed strat wo status checkpoint],
      storeSet
        (storeSet store req.project_id
          { sess with
            confirmed_data := some req.confirmed_data,
            user_modified_extraction := some req.user_modified,
            checkpoint_1_confirmed_at := some (rclock 0) })
        req.project_id
        { sess with
          confirmed_data := some req.confirmed_data,
          user_modified_extraction := some req.user_modified,
          checkpoint_1_confirmed_at := some (rclock 0),
          strategy := some strat, workflow_options := some wo,
          agent_insights := some (imm, ml, cb), phase := "checkpoint_2",
          checkpoint_2_events := some evs, updated_at := rclock 1 },
      SSEMessage.complete req.project_id ed strat wo status checkpoint, ?_, ?_, ?_⟩
    · simp only [confirmUnderstandingStream, hl, if_neg hp2, hg]
    · simp only [Phase2Result.events]
      rw [deliverFrom_eq evs obs 0 hchain, List.drop_zero]
    · intro e h
      exact SSEMessage.noConfusion h

theorem c9_witness :
    ∃ (msgs : List SSEMessage) (store2 : Store) (terminal : SSEMessage),
      confirmUnderstandingStream storeW { project_id := "p1", confirmed_data := [] }
          failCtx (fun _ => "t") [0, 1, 1, 2] = (Except.ok msgs, store2) ∧
      msgs = (generateFullAnalysis failCtx "brief" []).events.map SSEMessage.progress ++
          [terminal] ∧
      (∀ e : Event, terminal ≠ SSEMessage.progress e) :=
  c9_stream_delivery_exact_once storeW { project_id := "p1", confirmed_data := [] }
    failCtx (fun _ => "t") [0, 1, 1, 2] sessionCk1 rfl rfl
    (List.Chain.cons (by omega) (List.Chain.cons (by omega)
      (List.Chain.cons (by omega) (List.Chain.cons (by omega) List.Chain.nil))))

/-- C10: for every session stored in phase checkpoint_2 with a stored catalog,
and every list of selected step ids, finalize succeeds and returns as
`final_workflow` exactly those catalog steps whose id is a member of the
selected list, preserved in catalog order; selected ids matching no catalog
step are silently ignored (the operation still succeeds, no validation error),
and an empty selection yields an empty final workflow. -/
theorem c10_finalize_filtering :
    ∀ (store : Store) (req : WorkflowSelectionRequest) (rclock : Nat → String)
      (sess : Session) (wo : WorkflowOptions),
      store.lookup req.project_id = some sess →
      sess.phase = "checkpoint_2" →
      sess.workflow_options = some wo →
      ∃ (resp : FinalizeResponse) (store2 : Store),
        finalizeWorkflow store req rclock = (Except.ok resp, store2) ∧
        resp.final_workflow = wo.steps.filter (fun s => req.selected_steps.contains s.id) ∧
        (∀ s, s ∈ resp.final_workflow ↔
          (s ∈ wo.steps ∧ req.selected_steps.contains s.id = true)) ∧
        (req.selected_steps = [] → resp.final_workflow = []) := by
  intro store req rclock sess wo hl hp hwo
  have hp2 : ¬ sess.phase ≠ "checkpoint_2" := fun h => h hp
  have heq : finalizeWorkflow store req rclock =
      (Except.ok
        { success := true, project_id := req.project_id, status := "finalized",
          message := "Workflow finalized and ready to share with team",
          final_workflow := wo.steps.filter (fun s => req.selected_steps.contains s.id),
          share_url := "/api/report/" ++ req.project_id, finalized_at := rclock 2 },
        storeSet store req.project_id
          { sess with
            final_workflow_selections :=
              some ⟨req.selected_steps, req.modifications, req.user_notes⟩,
            phase := "finalized", finalized_at := some (rclock 0),
            updated_at := rclock 1 }) := by
    simp only [finalizeWorkflow, hl, if_neg hp2, hwo]
  refine ⟨_, _, heq, rfl, ?_, ?_⟩
  · intro s
    exact List.mem_filter
  · intro h
    rw [h]
    apply List.filter_eq_nil_iff.mpr
    intro a _
    simp [List.contains]

theorem c10_witness :
    ∃ (resp : FinalizeResponse) (store2 : Store),
      finalizeWorkflow storeW
          { project_id := "p2", selected_steps := ["fetch_candidates", "bogus_id"] }
          (fun _ => "t") = (Except.ok resp, store2) ∧
      resp.final_workflow = workflowSteps.filter
        (fun s => (["fetch_candidates", "bogus_id"] : List String).contains s.id) ∧
      (∀ s, s ∈ resp.final_workflow ↔
        (s ∈ workflowSteps ∧
          (["fetch_candidates", "bogus_id"] : List String).contains s.id = true)) ∧
      ((["fetch_candidates", "bogus_id"] : List String) = [] →
        resp.final_workflow = []) :=
  c10_finalize_filtering storeW
    { project_id := "p2", selected_steps := ["fetch_candidates", "bogus_id"] }
    (fun _ => "t") sessionCk2
    { steps := workflowSteps, total_estimated_cost := "$350",
      total_estimated_time := "~1 week (computational only)",
      budget_available := JValue.jstr "Unknown",
      constraints_timeline := JValue.jstr "Unknown",
      constraints_budget := JValue.jstr "Unknown" } rfl rfl rfl

end AiLab
